import Mathlib

/-!
Shallow embedding of the BorIS reporting core (boris/reporting/reports/hygiene.py,
boris/reporting/reports/council.py, boris/services/models/basic.py) and proofs of
the specified properties.

Conventions of the embedding:
* Database rows become Lean structures; querysets become Lean lists.
* Dates and datetimes are abstracted to `Nat` timestamps ordered by `≤`
  (only their ordering matters to the reporting queries), except where the
  textual form of a datetime matters (file names), where a record of calendar
  fields is used.
* Django `.filter(**kw)` becomes `List.filter`; `.values_list(f)` becomes
  `List.map`; `set(..)` becomes `List.toFinset`; `.count()`/`len` become
  `List.length`/`Finset.card`; `.aggregate(Sum(f))` over an empty queryset
  yields SQL NULL, embedded as `Option`.
* Python float arithmetic in the average-age computation is modelled by exact
  rational arithmetic, and Python 2 `round` by `round` (they agree on
  non-negative arguments).
-/

namespace Boris

/-- Periodicity of a risky behavior
(`classification.RISKY_BEHAVIOR_PERIODICITY`: never / once / often). -/
inductive Periodicity
  | NEVER
  | ONCE
  | OFTEN
deriving DecidableEq, Fintype

/-- Risky behavior kinds used by the hygiene report
(`classification.RISKY_BEHAVIOR_KIND`). -/
inductive BehaviorKind
  | INTRAVENOUS_APPLICATION
  | SYRINGE_SHARING
deriving DecidableEq, Fintype

/-- One `RiskyManners` row: behavior kind plus its periodicity in the present
and in the past. -/
structure RiskyManners where
  behavior : BehaviorKind
  periodicity_in_present : Periodicity
  periodicity_in_past : Periodicity
deriving DecidableEq

/-- One `Anamnesis` row together with its related `riskymanners_set`. -/
structure Anamnesis where
  client_id : Nat
  riskymanners_set : List RiskyManners
deriving DecidableEq

/-- `a.riskymanners_set.get(behavior=b)`: the client's unique risky-manners
record for behavior `b`, `none` when `RiskyManners.DoesNotExist` is raised. -/
def riskymannersGet (a : Anamnesis) (b : BehaviorKind) : Option RiskyManners :=
  a.riskymanners_set.find? (fun rm => rm.behavior = b)

/-- The intravenous-application classification of hygiene.py lines 82-94:
the branch cascade on `(periodicity_in_present, periodicity_in_past)` of the
client's INTRAVENOUS_APPLICATION record, with the `except DoesNotExist`
branch giving `'d'`. -/
def classifyIntravenous (rm : Option RiskyManners) : Char :=
  match rm with
  | none => 'd'
  | some ivrm =>
    if (ivrm.periodicity_in_present, ivrm.periodicity_in_past) =
        (Periodicity.NEVER, Periodicity.NEVER) then 'c'
    else if ivrm.periodicity_in_present = Periodicity.ONCE ∨
        ivrm.periodicity_in_present = Periodicity.OFTEN then 'b'
    else if ivrm.periodicity_in_present = Periodicity.NEVER ∧
        (ivrm.periodicity_in_past = Periodicity.ONCE ∨
         ivrm.periodicity_in_past = Periodicity.OFTEN) then 'a'
    else 'd'

/-- The syringe-sharing classification of hygiene.py lines 96-114: only
computed when the intravenous result is `'a'` or `'b'` (otherwise the
attribute is never assigned, embedded as `none`); inspects
`periodicity_in_present` when the first stage gave `'b'`, else
`periodicity_in_past`; the `except DoesNotExist` branch gives "unknown". -/
def classifySyringeSharing (iv : Char) (rm : Option RiskyManners) : Option String :=
  if iv = 'a' ∨ iv = 'b' then
    some (match rm with
      | none => "unknown"
      | some ssrm =>
        let per := if iv = 'b' then ssrm.periodicity_in_present
                   else ssrm.periodicity_in_past
        if per = Periodicity.ONCE ∨ per = Periodicity.OFTEN then "yes"
        else if per = Periodicity.NEVER then "no"
        else "unknown")
  else none

/-- Hygiene report kind (`self.kind`, hygiene.py line 23). -/
inductive HygieneKind
  | prevalence
  | incidence
deriving DecidableEq, Fintype

/-- One `Service` row as seen by the hygiene report's cured-before check:
the encounter it belongs to and whether its content type is
`IncomeExamination`. -/
structure HygServiceRow where
  encounter_id : Nat
  is_income_examination : Bool
deriving DecidableEq

/-- `a.extra_been_cured_before` (hygiene.py lines 74-75): true iff no
`IncomeExamination` service exists among the client's matched encounters
(`encounter_data[client]['objects']`, given here as the list `encs` of
encounter ids). -/
def been_cured_before (services : List HygServiceRow) (encs : List Nat) : Bool :=
  ! services.any (fun s => encs.contains s.encounter_id && s.is_income_examination)

/-- One output record of `get_anamnesis_list`: the anamnesis with the extra
annotations attached in the loop body. `extra_syringe_sharing` is `none`
when the attribute is never assigned (intravenous result not `'a'`/`'b'`). -/
structure AnnotatedAnamnesis where
  anamnesis : Anamnesis
  extra_been_cured_before : Bool
  extra_intravenous_application : Char
  extra_syringe_sharing : Option String
deriving DecidableEq

/-- The annotation part of the `get_anamnesis_list` loop body (hygiene.py
lines 74-116, classification included, the incidence `continue` excluded):
`encs` maps a client id to the ids of their matched encounters. -/
def annotateAnamnesis (services : List HygServiceRow) (encs : Nat → List Nat)
    (a : Anamnesis) : AnnotatedAnamnesis :=
  let cured := been_cured_before services (encs a.client_id)
  let iv := classifyIntravenous (riskymannersGet a BehaviorKind.INTRAVENOUS_APPLICATION)
  let ss := classifySyringeSharing iv (riskymannersGet a BehaviorKind.SYRINGE_SHARING)
  ⟨a, cured, iv, ss⟩

/-- The whole `get_anamnesis_list` loop (hygiene.py lines 69-118) over the
anamnesis queryset `qs`: each record is annotated, and in incidence mode the
`continue` at lines 78-79 skips clients whose `extra_been_cured_before`
is true. -/
def get_anamnesis_list (kind : HygieneKind) (services : List HygServiceRow)
    (encs : Nat → List Nat) (qs : List Anamnesis) : List AnnotatedAnamnesis :=
  qs.filterMap (fun a =>
    if kind = HygieneKind.incidence ∧
        been_cured_before services (encs a.client_id) = true then none
    else some (annotateAnamnesis services encs a))

/-- `HygieneReport.__init__` town resolution (hygiene.py line 22):
`self.towns = towns or Town.objects.all()`. Towns are identified by id. -/
def hygieneResolveTowns (towns allTowns : List Nat) : List Nat :=
  if towns.isEmpty then allTowns else towns

/-- The hygiene report's encounter filter (hygiene.py lines 51-54) restricted
to its date/town conditions: `performed_on__gte`, `performed_on__lt` (strict!)
and `where__in=self.towns` on a list of (performed_on, where) pairs. -/
def hygieneEncounterFilter (dtFrom dtTo : Nat) (towns : List Nat)
    (rows : List (Nat × Nat)) : List (Nat × Nat) :=
  rows.filter (fun r => dtFrom ≤ r.1 && r.1 < dtTo && towns.contains r.2)

/-- The `DRUGS` constants of boris.classification used by the RVKPP
clients report. -/
inductive Drug
  | HEROIN
  | SUBUTEX_LEGAL
  | SUBUTEX_ILLEGAL
  | SUBOXONE
  | METHADONE
  | VENDAL
  | RAW_OPIUM
  | BRAUN
  | METHAMPHETAMINE
  | COCAINE
  | THC
  | ECSTASY
  | LSD
  | PSYLOCIBE
  | INHALER_DRUGS
  | DESIGNER_DRUGS
  | MEDICAMENTS
  | ALCOHOL
  | TOBACCO
  | PATHOLOGICAL_GAMBLING
  | OTHER_NON_SUBSTANCE_ADDICTION
deriving DecidableEq, Fintype

/-- One `Service` row as seen by `GovCouncilReport._get_services`: the fields
of its encounter that the report filters and projects on. -/
structure ServiceRow where
  encounter_id : Nat
  encounter_person_id : Nat
  encounter_performed_on : Nat
  encounter_town : Nat
deriving DecidableEq

/-- One `Encounter` row as filtered by the RVKPP report. -/
structure EncounterRow where
  id : Nat
  person : Nat
  performed_on : Nat
  town : Nat
  is_by_phone : Bool
deriving DecidableEq

/-- One `Client` row: primary key, birth year when the birthdate is known,
primary drug when set. -/
structure ClientRow where
  pk : Nat
  birthyear : Option Int
  primary_drug : Option Drug
deriving DecidableEq

/-- One `SyringeCollection` row. -/
structure SyringeCollectionRow where
  date : Nat
  town : Nat
  count : Int
deriving DecidableEq

/-- `GovCouncilReport._get_services` (council.py lines 47-54): filter a
service class's rows by `encounter__performed_on__gte/lte`; the
`encounter__where__in` condition is added only when `self.towns` is truthy
(non-empty). -/
def get_services (dtFrom dtTo : Nat) (towns : List Nat)
    (service_cls : List ServiceRow) : List ServiceRow :=
  if towns.isEmpty then
    service_cls.filter (fun s =>
      dtFrom ≤ s.encounter_performed_on && s.encounter_performed_on ≤ dtTo)
  else
    service_cls.filter (fun s =>
      dtFrom ≤ s.encounter_performed_on && s.encounter_performed_on ≤ dtTo &&
      towns.contains s.encounter_town)

/-- `GovCouncilReport._get_client_count` (council.py lines 65-79): concatenate
the matched person ids over the listed service classes, then
`len(set(person_ids) - set(anonymous_ids))`. -/
def get_client_count (dtFrom dtTo : Nat) (towns : List Nat)
    (service_classes : List (List ServiceRow)) (anonymous_ids : List Nat) : Nat :=
  let person_ids := service_classes.foldl
    (fun acc cls => acc ++ (get_services dtFrom dtTo towns cls).map
      (fun s => s.encounter_person_id)) []
  (person_ids.toFinset \ anonymous_ids.toFinset).card

/-- `GovCouncilReport._get_queryset_client_count` (council.py lines 81-91). -/
def get_queryset_client_count (qs : List ServiceRow)
    (anonymous_ids : List Nat) : Nat :=
  ((qs.map (fun s => s.encounter_person_id)).toFinset \ anonymous_ids.toFinset).card

/-- A SQL aggregate `Sum` over a queryset column: `NULL` (`none`) when no row
matches, the sum otherwise. -/
def aggregateSum (xs : List Int) : Option Int :=
  if xs.isEmpty then none else some xs.sum

/-- A SQL aggregate `Max` over a queryset column: `NULL` when no row
matches. -/
def aggregateMax (xs : List Int) : Option Int :=
  xs.max?

/-- A SQL aggregate `Avg` over a queryset column: `NULL` when no row
matches, the (exact rational) mean otherwise. -/
def aggregateAvg (xs : List Int) : Option ℚ :=
  if xs.isEmpty then none else some ((xs.sum : ℚ) / xs.length)

/-- Python `x or 0` applied to a nullable integer aggregate: `None` is falsy
(and so is `0`, which `or` also sends to `0`), so the result is
`Option.getD · 0`. -/
def orZeroInt (x : Option Int) : Int :=
  x.getD 0

/-- Python `x or 0` applied to a nullable rational aggregate. -/
def orZeroRat (x : Option ℚ) : ℚ :=
  x.getD 0

/-- `_sum_int` (services/models/basic.py lines 39-40): the `Sum` aggregate of
the filtered rows, coalesced with `or 0`. -/
def sum_int (xs : List Int) : Int :=
  orZeroInt (aggregateSum xs)

/-- `_max_int` (services/models/basic.py lines 43-44). -/
def max_int (xs : List Int) : Int :=
  orZeroInt (aggregateMax xs)

/-- `_avg_int` (services/models/basic.py lines 47-48). -/
def avg_int (xs : List Int) : ℚ :=
  orZeroRat (aggregateAvg xs)

/-- The syringe-collection filter of `_get_syringes_count` (council.py lines
105-111): `date__gte`, `date__lte`, and `town__in` only when `self.towns` is
non-empty. -/
def syringeCollectionFilter (dtFrom dtTo : Nat) (towns : List Nat)
    (rows : List SyringeCollectionRow) : List SyringeCollectionRow :=
  if towns.isEmpty then
    rows.filter (fun r => dtFrom ≤ r.date && r.date ≤ dtTo)
  else
    rows.filter (fun r => dtFrom ≤ r.date && r.date ≤ dtTo && towns.contains r.town)

/-- `GovCouncilReport._get_syringes_count` (council.py lines 105-113):
`aggregate(Sum('count'))['count__sum']` of the filtered collections — no
`or 0`, so an empty match yields `None`. -/
def get_syringes_count (dtFrom dtTo : Nat) (towns : List Nat)
    (rows : List SyringeCollectionRow) : Option Int :=
  aggregateSum ((syringeCollectionFilter dtFrom dtTo towns rows).map
    (fun r => r.count))

/-- One `HarmReduction` service row: the encounter fields plus the needle
in/out counters. -/
structure HarmReductionRow where
  service : ServiceRow
  in_count : Int
  out_count : Int
deriving DecidableEq

/-- `self._get_services(HarmReduction)` (council.py line 281): the
`_get_services` filter applied to the `HarmReduction` service class. -/
def get_harm_reduction_services (dtFrom dtTo : Nat) (towns : List Nat)
    (rows : List HarmReductionRow) : List HarmReductionRow :=
  if towns.isEmpty then
    rows.filter (fun r => dtFrom ≤ r.service.encounter_performed_on &&
      r.service.encounter_performed_on ≤ dtTo)
  else
    rows.filter (fun r => dtFrom ≤ r.service.encounter_performed_on &&
      r.service.encounter_performed_on ≤ dtTo &&
      towns.contains r.service.encounter_town)

/-- The needle-out sum of `_get_data_services` (council.py line 350):
`harm_reductions.aggregate(Sum('out_count'))['out_count__sum']` — no
`or 0`. -/
def harm_reduction_out_sum (dtFrom dtTo : Nat) (towns : List Nat)
    (rows : List HarmReductionRow) : Option Int :=
  aggregateSum ((get_harm_reduction_services dtFrom dtTo towns rows).map
    (fun r => r.out_count))

/-- The needle-in sum of `_get_data_services` (council.py line 352). -/
def harm_reduction_in_sum (dtFrom dtTo : Nat) (towns : List Nat)
    (rows : List HarmReductionRow) : Option Int :=
  aggregateSum ((get_harm_reduction_services dtFrom dtTo towns rows).map
    (fun r => r.in_count))

/-- The encounter filter of `__get_client_encounters` (council.py lines
121-129): date bounds, `where__in` only when `self.towns` is non-empty, then
`.exclude(person__in=anonymous_ids)`. `is_by_phone` is constrained by the
caller's `filtering` dict. -/
def get_client_encounters (byPhone : Bool) (dtFrom dtTo : Nat)
    (towns : List Nat) (anonymous_ids : List Nat)
    (rows : List EncounterRow) : List EncounterRow :=
  let dated :=
    if towns.isEmpty then
      rows.filter (fun e => e.is_by_phone = byPhone &&
        dtFrom ≤ e.performed_on && e.performed_on ≤ dtTo)
    else
      rows.filter (fun e => e.is_by_phone = byPhone &&
        dtFrom ≤ e.performed_on && e.performed_on ≤ dtTo &&
        towns.contains e.town)
  dated.filter (fun e => ! anonymous_ids.contains e.person)

/-- `GovCouncilReport._get_all_drug_users` (council.py lines 157-167): the
clients whose pk occurs among the persons of the date/town-matched encounters
and whose `primary_drug` is not `None`. -/
def get_all_drug_users (dtFrom dtTo : Nat) (towns : List Nat)
    (encounters : List EncounterRow) (clients : List ClientRow) : List ClientRow :=
  let matched :=
    if towns.isEmpty then
      encounters.filter (fun e => dtFrom ≤ e.performed_on && e.performed_on ≤ dtTo)
    else
      encounters.filter (fun e => dtFrom ≤ e.performed_on &&
        e.performed_on ≤ dtTo && towns.contains e.town)
  let persons := matched.map (fun e => e.person)
  clients.filter (fun c => persons.contains c.pk && c.primary_drug.isSome)

/-- The `primary_drug__in=drugs` lookup: true iff the client's primary drug
is set and belongs to `drugs`. -/
def primaryDrugIn (drugs : List Drug) (c : ClientRow) : Bool :=
  match c.primary_drug with
  | some d => drugs.contains d
  | none => false

/-- `GovCouncilReport._get_primary_drug_users` (council.py lines 182-185):
`_get_all_drug_users().filter(primary_drug__in=drugs)`. -/
def get_primary_drug_users (drugs : List Drug) (dtFrom dtTo : Nat)
    (towns : List Nat) (encounters : List EncounterRow)
    (clients : List ClientRow) : List ClientRow :=
  (get_all_drug_users dtFrom dtTo towns encounters clients).filter
    (primaryDrugIn drugs)

/-- The eleven per-primary-drug groups of rows 1.1-1.11 of
`_get_data_clients` (council.py lines 210-226). -/
def clientsReportDrugGroups : List (List Drug) :=
  [[Drug.HEROIN],
   [Drug.SUBUTEX_LEGAL, Drug.SUBUTEX_ILLEGAL, Drug.SUBOXONE],
   [Drug.METHADONE],
   [Drug.VENDAL, Drug.RAW_OPIUM, Drug.BRAUN],
   [Drug.METHAMPHETAMINE],
   [Drug.COCAINE],
   [Drug.THC],
   [Drug.ECSTASY],
   [Drug.LSD, Drug.PSYLOCIBE],
   [Drug.INHALER_DRUGS],
   [Drug.DESIGNER_DRUGS, Drug.MEDICAMENTS]]

/-- The value printed in row 1.k of the clients report: `drug(*group)`, i.e.
`self._get_primary_drug_users(*group).count()`. -/
def drugRowCount (group : List Drug) (dtFrom dtTo : Nat) (towns : List Nat)
    (encounters : List EncounterRow) (clients : List ClientRow) : Nat :=
  (get_primary_drug_users group dtFrom dtTo towns encounters clients).length

/-- The value printed in row 5.1 of the clients report (council.py lines
257-258): `self._get_all_drug_users().count()`. -/
def totalDrugUsersCount (dtFrom dtTo : Nat) (towns : List Nat)
    (encounters : List EncounterRow) (clients : List ClientRow) : Nat :=
  (get_all_drug_users dtFrom dtTo towns encounters clients).length

/-- `GovCouncilReport._get_average_age` (council.py lines 187-192): collect
the birth years of the clients with a known birthdate, subtract from the
current year, and return the rounded mean, `0` when the list of ages is
empty (no division is performed then). -/
def get_average_age (this_year : Int) (clients : List ClientRow) : Int :=
  let years := clients.filterMap (fun c => c.birthyear)
  let ages := years.map (fun year => this_year - year)
  if ages.isEmpty then 0 else round ((ages.sum : ℚ) / ages.length)

/-- A `datetime.datetime` value, calendar fields only. -/
structure PyDatetime where
  year : Nat
  month : Nat
  day : Nat
  hour : Nat
  minute : Nat
  second : Nat
deriving DecidableEq

/-- Zero-padding to two digits, as `datetime.__str__` prints month, day and
time fields. -/
def pad2 (n : Nat) : String :=
  if n < 10 then "0" ++ toString n else toString n

/-- Zero-padding to four digits for the year field. -/
def pad4 (n : Nat) : String :=
  if n < 10 then "000" ++ toString n
  else if n < 100 then "00" ++ toString n
  else if n < 1000 then "0" ++ toString n
  else toString n

/-- `'%s' % dt` for a `datetime`: `"YYYY-MM-DD HH:MM:SS"`. -/
def strOfDatetime (dt : PyDatetime) : String :=
  pad4 dt.year ++ "-" ++ pad2 dt.month ++ "-" ++ pad2 dt.day ++ " " ++
    pad2 dt.hour ++ ":" ++ pad2 dt.minute ++ ":" ++ pad2 dt.second

/-- The effect of `.replace('-', '_').replace(' ', '_')` on a single
character: both patterns are one character long, so the two replacements
rewrite each `'-'` and each `' '` to `'_'`. -/
def underscoreChar (c : Char) : Char :=
  if c = '-' ∨ c = ' ' then '_' else c

/-- `HygieneReport.get_filename` (hygiene.py lines 25-26):
`('vystup_pro_hygienu_%s_%s.doc' % (datetime_from, datetime_to))` with the
dashes and spaces replaced by underscores. -/
def hygiene_get_filename (datetime_from datetime_to : PyDatetime) : String :=
  String.mk ((("vystup_pro_hygienu_" ++ strOfDatetime datetime_from ++ "_" ++
    strOfDatetime datetime_to ++ ".doc").data).map underscoreChar)

/-- The RVKPP report subtype (`self.kind`, council.py line 32). -/
inductive GovCouncilKind
  | clients
  | services
deriving DecidableEq, Fintype

/-- `GovCouncilReport.get_filename` (council.py lines 35-38). The method has
the report's date range in scope (`self.datetime_from`/`self.datetime_to`,
passed here explicitly) but its result branches on `self.kind` only. -/
def gov_council_get_filename (kind : GovCouncilKind)
    (_datetime_from _datetime_to : PyDatetime) : String :=
  match kind with
  | GovCouncilKind.clients => "RVKPP_klienti.xls"
  | GovCouncilKind.services => "RVKPP_vykony.xls"

/-! ### Helper lemmas (shared, not claim theorems) -/

/-- `get_anamnesis_list` is the filter of the annotated list by the
kind-dependent retention condition. -/
lemma get_anamnesis_list_eq_filter (kind : HygieneKind)
    (services : List HygServiceRow) (encs : Nat → List Nat)
    (qs : List Anamnesis) :
    get_anamnesis_list kind services encs qs =
      (qs.map (annotateAnamnesis services encs)).filter
        (fun r => ! (kind = HygieneKind.incidence &&
          r.extra_been_cured_before)) := by
  have hcond : ∀ x : Anamnesis,
      (decide (kind = HygieneKind.incidence) &&
        (annotateAnamnesis services encs x).extra_been_cured_before) = true ↔
      (kind = HygieneKind.incidence ∧
        been_cured_before services (encs x.client_id) = true) := by
    intro x
    simp [annotateAnamnesis]
  induction qs with
  | nil => rfl
  | cons a t ih =>
    by_cases hc : kind = HygieneKind.incidence ∧
        been_cured_before services (encs a.client_id) = true
    · have h1 : get_anamnesis_list kind services encs (a :: t) =
          get_anamnesis_list kind services encs t := by
        simp [get_anamnesis_list, hc]
      have h2 : (!(decide (kind = HygieneKind.incidence) &&
          (annotateAnamnesis services encs a).extra_been_cured_before)) = false := by
        simp only [Bool.not_eq_false']
        exact (hcond a).mpr hc
      rw [h1, ih, List.map_cons, List.filter_cons, h2]
      simp
    · have h1 : get_anamnesis_list kind services encs (a :: t) =
          annotateAnamnesis services encs a ::
            get_anamnesis_list kind services encs t := by
        simp [get_anamnesis_list, hc]
      have h2 : (!(decide (kind = HygieneKind.incidence) &&
          (annotateAnamnesis services encs a).extra_been_cured_before)) = true := by
        simp only [Bool.not_eq_true']
        by_contra hx
        exact hc ((hcond a).mp (by
          cases hb : (decide (kind = HygieneKind.incidence) &&
            (annotateAnamnesis services encs a).extra_been_cured_before)
          · exact absurd hb hx
          · rfl))
      rw [h1, ih, List.map_cons, List.filter_cons, h2]
      simp

/-! ### Claim theorems -/

/-- C1: for every client in the hygiene report, the intravenous-application
classification is the pure function of
(periodicity_in_present, periodicity_in_past) of the client's
INTRAVENOUS_APPLICATION risky-manners record given by the spec's table:
(NEVER, NEVER) ↦ 'c'; present ∈ {ONCE, OFTEN} ↦ 'b' regardless of past;
present = NEVER with past ∈ {ONCE, OFTEN} ↦ 'a'; every other pair ↦ 'd';
and a client with no such record is classified 'd'. -/
theorem intravenous_classification_table :
    (∀ (services : List HygServiceRow) (encs : Nat → List Nat) (a : Anamnesis),
      (annotateAnamnesis services encs a).extra_intravenous_application =
        classifyIntravenous
          (riskymannersGet a BehaviorKind.INTRAVENOUS_APPLICATION)) ∧
    (classifyIntravenous none = 'd') ∧
    (∀ (b : BehaviorKind) (pres past : Periodicity),
      classifyIntravenous (some ⟨b, pres, past⟩) =
        if pres = Periodicity.NEVER ∧ past = Periodicity.NEVER then 'c'
        else if pres = Periodicity.ONCE ∨ pres = Periodicity.OFTEN then 'b'
        else if pres = Periodicity.NEVER ∧
            (past = Periodicity.ONCE ∨ past = Periodicity.OFTEN) then 'a'
        else 'd') := by
  refine ⟨fun services encs a => rfl, rfl, ?_⟩
  decide

/-- C2: the syringe-sharing classification is computed only for clients whose
intravenous result is 'a' or 'b'; it inspects periodicity_in_past of the
SYRINGE_SHARING record when the first stage gave 'a' and
periodicity_in_present when it gave 'b', maps ONCE/OFTEN to "yes", NEVER to
"no" (there is no other periodicity value), and a missing record to
"unknown". -/
theorem syringe_sharing_classification :
    (∀ (services : List HygServiceRow) (encs : Nat → List Nat) (a : Anamnesis),
      (annotateAnamnesis services encs a).extra_syringe_sharing =
        classifySyringeSharing
          (annotateAnamnesis services encs a).extra_intravenous_application
          (riskymannersGet a BehaviorKind.SYRINGE_SHARING)) ∧
    (∀ (iv : Char) (rm : Option RiskyManners),
      iv ≠ 'a' → iv ≠ 'b' → classifySyringeSharing iv rm = none) ∧
    (∀ iv : Char, (iv = 'a' ∨ iv = 'b') →
      classifySyringeSharing iv none = some "unknown") ∧
    (∀ rm : RiskyManners, classifySyringeSharing 'a' (some rm) =
      some (if rm.periodicity_in_past = Periodicity.ONCE ∨
          rm.periodicity_in_past = Periodicity.OFTEN then "yes"
        else if rm.periodicity_in_past = Periodicity.NEVER then "no"
        else "unknown")) ∧
    (∀ rm : RiskyManners, classifySyringeSharing 'b' (some rm) =
      some (if rm.periodicity_in_present = Periodicity.ONCE ∨
          rm.periodicity_in_present = Periodicity.OFTEN then "yes"
        else if rm.periodicity_in_present = Periodicity.NEVER then "no"
        else "unknown")) := by
  refine ⟨fun services encs a => rfl, ?_, ?_, ?_, ?_⟩
  · intro iv rm h1 h2
    have : ¬ (iv = 'a' ∨ iv = 'b') := by
      rintro (h | h)
      · exact h1 h
      · exact h2 h
    simp [classifySyringeSharing, this]
  · rintro iv (h | h) <;> subst h <;> rfl
  · intro rm
    simp [classifySyringeSharing]
  · intro rm
    simp [classifySyringeSharing]

/-- C2 witness: the theorem applied at concrete inputs. -/
theorem syringe_sharing_classification_witness :
    classifySyringeSharing 'c' none = none ∧
    classifySyringeSharing 'a' none = some "unknown" :=
  ⟨syringe_sharing_classification.2.1 'c' none (by decide) (by decide),
   syringe_sharing_classification.2.2.1 'a' (Or.inl rfl)⟩

/-- C6: in incidence mode, `get_anamnesis_list` retains exactly the
classified clients whose been_cured_before annotation is false; in prevalence
mode it retains every classified client. -/
theorem incidence_prevalence_retention :
    ∀ (services : List HygServiceRow) (encs : Nat → List Nat)
      (qs : List Anamnesis),
      (get_anamnesis_list HygieneKind.incidence services encs qs =
        (qs.map (annotateAnamnesis services encs)).filter
          (fun r => r.extra_been_cured_before = false)) ∧
      (get_anamnesis_list HygieneKind.prevalence services encs qs =
        qs.map (annotateAnamnesis services encs)) := by
  intro services encs qs
  constructor
  · rw [get_anamnesis_list_eq_filter]
    apply List.filter_congr
    intro r _
    simp
  · rw [get_anamnesis_list_eq_filter]
    have : ∀ r ∈ qs.map (annotateAnamnesis services encs),
        (!(decide (HygieneKind.prevalence = HygieneKind.incidence) &&
          r.extra_been_cured_before)) = true := by
      intro r _
      simp
    rw [List.filter_congr this]
    exact List.filter_true _

/-- C7: each reported client record is annotated with a treated-before flag
(`extra_been_cured_before`) that is true iff no income-examination service
exists among the client's matched encounters; in incidence mode only clients
with that flag false (never treated before) are retained, and the output is
the post-classification filter of the annotated list. -/
theorem treated_before_flag_and_incidence_filter :
    ∀ (services : List HygServiceRow) (encs : Nat → List Nat),
      (∀ a : Anamnesis,
        ((annotateAnamnesis services encs a).extra_been_cured_before = true ↔
          ¬ ∃ s ∈ services, s.encounter_id ∈ encs a.client_id ∧
            s.is_income_examination = true)) ∧
      (∀ qs : List Anamnesis,
        get_anamnesis_list HygieneKind.incidence services encs qs =
          (qs.map (annotateAnamnesis services encs)).filter
            (fun r => ! r.extra_been_cured_before)) := by
  intro services encs
  constructor
  · intro a
    simp only [annotateAnamnesis, been_cured_before]
    rw [Bool.not_eq_true', List.any_eq_false]
    constructor
    · rintro h ⟨s, hs, hmem, hinc⟩
      have := h s hs
      rw [Bool.not_eq_true, Bool.and_eq_false_iff] at this
      rcases this with h1 | h1
      · simp only [List.contains, List.elem_eq_mem,
          decide_eq_false_iff_not] at h1
        exact h1 hmem
      · rw [hinc] at h1
        exact Bool.false_ne_true h1.symm
    · intro h s hs
      rw [Bool.not_eq_true, Bool.and_eq_false_iff]
      by_cases hmem : s.encounter_id ∈ encs a.client_id
      · right
        by_contra hinc
        rw [Bool.not_eq_false] at hinc
        exact h ⟨s, hs, hmem, hinc⟩
      · left
        simp only [List.contains, List.elem_eq_mem,
          decide_eq_false_iff_not]
        exact hmem
  · intro qs
    rw [get_anamnesis_list_eq_filter]
    apply List.filter_congr
    intro r _
    simp

/-- C1 witness: the classification table applied at a concrete input. -/
theorem intravenous_classification_table_witness :
    classifyIntravenous (some ⟨BehaviorKind.INTRAVENOUS_APPLICATION,
      Periodicity.ONCE, Periodicity.NEVER⟩) = 'b' :=
  (intravenous_classification_table.2.2 BehaviorKind.INTRAVENOUS_APPLICATION
    Periodicity.ONCE Periodicity.NEVER).trans (by decide)

/-- C6 witness: the retention rule applied to a concrete one-record list. -/
theorem incidence_prevalence_retention_witness :
    get_anamnesis_list HygieneKind.prevalence [] (fun _ => []) [⟨1, []⟩] =
      [(⟨1, []⟩ : Anamnesis)].map (annotateAnamnesis [] (fun _ => [])) :=
  (incidence_prevalence_retention [] (fun _ => []) [⟨1, []⟩]).2

/-- C7 witness: the incidence filter applied at a concrete input. -/
theorem treated_before_flag_witness :
    get_anamnesis_list HygieneKind.incidence [⟨5, true⟩] (fun _ => [5]) [] = [] :=
  ((treated_before_flag_and_incidence_filter [⟨5, true⟩]
    (fun _ => [5])).2 []).trans rfl

/-- Spec-side description of C3: the set of person ids of matched services,
duplicates across the listed service classes deduplicated (a set union). -/
def specMatchedPersonIds (dtFrom dtTo : Nat) (towns : List Nat)
    (service_classes : List (List ServiceRow)) : Finset Nat :=
  service_classes.foldr
    (fun cls acc =>
      ((get_services dtFrom dtTo towns cls).map
        (fun s => s.encounter_person_id)).toFinset ∪ acc) ∅

/-- The concatenation accumulated by `_get_client_count`'s loop, as a
finset, is the union of the per-class finsets. -/
lemma foldl_append_toFinset {α β : Type} [DecidableEq β] (g : α → List β) :
    ∀ (classes : List α) (init : List β),
      (classes.foldl (fun acc cls => acc ++ g cls) init).toFinset =
        init.toFinset ∪
          classes.foldr (fun cls acc => (g cls).toFinset ∪ acc) ∅ := by
  intro classes
  induction classes with
  | nil =>
    intro init
    simp
  | cons c t ih =>
    intro init
    simp only [List.foldl_cons, List.foldr_cons, ih (init ++ g c),
      List.toFinset_append, Finset.union_assoc]

/-- C3: `_get_client_count` equals the cardinality of the difference between
the deduplicated set of matched person ids and the set of anonymous-person
ids, and an anonymous person is never a member of the counted set — neither
in `_get_client_count` nor in `_get_queryset_client_count`. -/
theorem client_count_excludes_anonymous :
    ∀ (dtFrom dtTo : Nat) (towns : List Nat)
      (service_classes : List (List ServiceRow)) (anonymous_ids : List Nat),
      (get_client_count dtFrom dtTo towns service_classes anonymous_ids =
        (specMatchedPersonIds dtFrom dtTo towns service_classes \
          anonymous_ids.toFinset).card) ∧
      (∀ p ∈ anonymous_ids,
        p ∉ specMatchedPersonIds dtFrom dtTo towns service_classes \
          anonymous_ids.toFinset) ∧
      (∀ qs : List ServiceRow,
        get_queryset_client_count qs anonymous_ids =
          ((qs.map (fun s => s.encounter_person_id)).toFinset \
            anonymous_ids.toFinset).card ∧
        ∀ p ∈ anonymous_ids,
          p ∉ (qs.map (fun s => s.encounter_person_id)).toFinset \
            anonymous_ids.toFinset) := by
  intro dtFrom dtTo towns service_classes anonymous_ids
  refine ⟨?_, ?_, ?_⟩
  · show ((service_classes.foldl
        (fun acc cls => acc ++ (get_services dtFrom dtTo towns cls).map
          (fun s => s.encounter_person_id)) []).toFinset \
        anonymous_ids.toFinset).card = _
    rw [foldl_append_toFinset
      (fun cls => (get_services dtFrom dtTo towns cls).map
        (fun s => s.encounter_person_id)) service_classes []]
    simp [specMatchedPersonIds]
  · intro p hp
    rw [Finset.mem_sdiff]
    rintro ⟨-, hnot⟩
    exact hnot (List.mem_toFinset.mpr hp)
  · intro qs
    refine ⟨rfl, ?_⟩
    intro p hp
    rw [Finset.mem_sdiff]
    rintro ⟨-, hnot⟩
    exact hnot (List.mem_toFinset.mpr hp)

/-- C3 witness: the count and the exclusion applied at concrete inputs:
one service class with two services of person 1 and one of person 2, with
person 2 anonymous. -/
theorem client_count_excludes_anonymous_witness :
    get_client_count 0 10 [] [[⟨1, 1, 5, 9⟩, ⟨2, 1, 6, 9⟩, ⟨3, 2, 7, 9⟩]] [2] =
      (specMatchedPersonIds 0 10 []
        [[⟨1, 1, 5, 9⟩, ⟨2, 1, 6, 9⟩, ⟨3, 2, 7, 9⟩]] \ ([2] : List Nat).toFinset).card ∧
    (2 : Nat) ∉ specMatchedPersonIds 0 10 []
      [[⟨1, 1, 5, 9⟩, ⟨2, 1, 6, 9⟩, ⟨3, 2, 7, 9⟩]] \ ([2] : List Nat).toFinset :=
  ⟨(client_count_excludes_anonymous 0 10 []
      [[⟨1, 1, 5, 9⟩, ⟨2, 1, 6, 9⟩, ⟨3, 2, 7, 9⟩]] [2]).1,
   (client_count_excludes_anonymous 0 10 []
      [[⟨1, 1, 5, 9⟩, ⟨2, 1, 6, 9⟩, ⟨3, 2, 7, 9⟩]] [2]).2.1 2 (by decide)⟩

/-- C4: `_get_average_age` returns the rounded mean of
(current year − birth year) over exactly the clients with a known birthdate,
and returns 0 — taking the no-division branch — whenever no client in the
group has a birthdate (in particular for the empty group). -/
theorem average_age_rounded_mean_or_zero :
    ∀ (this_year : Int) (clients : List ClientRow),
      ((∀ c ∈ clients, c.birthyear = none) →
        get_average_age this_year clients = 0) ∧
      (clients.filterMap (fun c => c.birthyear) ≠ [] →
        get_average_age this_year clients =
          round (((((clients.filterMap (fun c => c.birthyear)).map
              (fun year => this_year - year)).sum : ℚ) /
            ((clients.filterMap (fun c => c.birthyear)).map
              (fun year => this_year - year)).length))) := by
  intro this_year clients
  constructor
  · intro h
    have hnil : clients.filterMap (fun c => c.birthyear) = [] :=
      List.filterMap_eq_nil_iff.mpr h
    simp [get_average_age, hnil]
  · intro h
    have hne : ((clients.filterMap (fun c => c.birthyear)).map
        (fun year => this_year - year)).isEmpty = false := by
      rw [List.isEmpty_eq_false, ← List.length_pos, List.length_map,
        List.length_pos]
      exact h
    simp only [get_average_age, hne]
    rfl

/-- C4 witness: the theorem applied at a one-client group with a known
birthdate and at the empty group. -/
theorem average_age_rounded_mean_or_zero_witness :
    get_average_age 2020 [] = 0 ∧
    get_average_age 2020 [⟨1, some 1990, none⟩] = 30 := by
  constructor
  · exact (average_age_rounded_mean_or_zero 2020 []).1 (by simp)
  · have h := (average_age_rounded_mean_or_zero 2020
      [⟨1, some 1990, none⟩]).2 (by decide)
    rw [h]
    norm_num [List.filterMap_cons, List.filterMap_nil]

/-- C5: when the supplied town set is empty, no town restriction is applied
to the service, encounter and syringe-collection queries (the result is the
pure date filter, not the empty result); when it is non-empty, every match
is located in one of the listed towns. For the hygiene report the empty set
is first replaced by all towns, which restricts nothing as long as every
encounter's town is a known town. -/
theorem empty_town_set_no_restriction :
    (∀ (dtFrom dtTo : Nat) (svc : List ServiceRow),
      get_services dtFrom dtTo [] svc =
        svc.filter (fun s => dtFrom ≤ s.encounter_performed_on &&
          s.encounter_performed_on ≤ dtTo)) ∧
    (∀ (dtFrom dtTo : Nat) (towns : List Nat) (svc : List ServiceRow),
      towns ≠ [] → ∀ s ∈ get_services dtFrom dtTo towns svc,
        s.encounter_town ∈ towns) ∧
    (∀ (dtFrom dtTo : Nat) (colls : List SyringeCollectionRow),
      syringeCollectionFilter dtFrom dtTo [] colls =
        colls.filter (fun r => dtFrom ≤ r.date && r.date ≤ dtTo)) ∧
    (∀ (dtFrom dtTo : Nat) (towns : List Nat)
      (colls : List SyringeCollectionRow),
      towns ≠ [] → ∀ r ∈ syringeCollectionFilter dtFrom dtTo towns colls,
        r.town ∈ towns) ∧
    (∀ (byPhone : Bool) (dtFrom dtTo : Nat) (anon : List Nat)
      (rows : List EncounterRow),
      get_client_encounters byPhone dtFrom dtTo [] anon rows =
        (rows.filter (fun e => e.is_by_phone = byPhone &&
          dtFrom ≤ e.performed_on && e.performed_on ≤ dtTo)).filter
          (fun e => ! anon.contains e.person)) ∧
    (∀ allTowns : List Nat, hygieneResolveTowns [] allTowns = allTowns) ∧
    (∀ (dtFrom dtTo : Nat) (allTowns : List Nat) (rows : List (Nat × Nat)),
      (∀ r ∈ rows, r.2 ∈ allTowns) →
      hygieneEncounterFilter dtFrom dtTo (hygieneResolveTowns [] allTowns)
        rows = rows.filter (fun r => dtFrom ≤ r.1 && r.1 < dtTo)) := by
  refine ⟨fun _ _ _ => rfl, ?_, fun _ _ _ => rfl, ?_, fun _ _ _ _ _ => rfl,
    fun _ => rfl, ?_⟩
  · intro dtFrom dtTo towns svc h s hs
    have hempty : towns.isEmpty = false := by
      rw [List.isEmpty_eq_false]
      exact h
    simp only [get_services, hempty, Bool.false_eq_true, if_false] at hs
    have := (List.mem_filter.mp hs).2
    simp only [Bool.and_eq_true] at this
    have hcon := this.2
    simpa [List.contains, List.elem_eq_mem] using hcon
  · intro dtFrom dtTo towns colls h r hr
    have hempty : towns.isEmpty = false := by
      rw [List.isEmpty_eq_false]
      exact h
    simp only [syringeCollectionFilter, hempty, Bool.false_eq_true,
      if_false] at hr
    have := (List.mem_filter.mp hr).2
    simp only [Bool.and_eq_true] at this
    have hcon := this.2
    simpa [List.contains, List.elem_eq_mem] using hcon
  · intro dtFrom dtTo allTowns rows h
    rw [show hygieneResolveTowns [] allTowns = allTowns from rfl]
    unfold hygieneEncounterFilter
    apply List.filter_congr
    intro r hr
    have hcon : allTowns.contains r.2 = true := by
      simp only [List.contains, List.elem_eq_mem, decide_eq_true_eq]
      exact h r hr
    rw [hcon, Bool.and_true]

/-- C5 witness: the theorem applied at concrete inputs: the resolved empty
town set restricts nothing, and a non-empty town set restricts membership. -/
theorem empty_town_set_no_restriction_witness :
    (hygieneEncounterFilter 0 10 (hygieneResolveTowns [] [3]) [(5, 3)] =
      [((5 : Nat), (3 : Nat))].filter (fun r => 0 ≤ r.1 && r.1 < 10)) ∧
    ((⟨1, 1, 5, 9⟩ : ServiceRow).encounter_town ∈ [9]) :=
  ⟨empty_town_set_no_restriction.2.2.2.2.2.2 0 10 [3] [(5, 3)] (by decide),
   empty_town_set_no_restriction.2.1 0 10 [9] [⟨1, 1, 5, 9⟩] (by decide)
     ⟨1, 1, 5, 9⟩ (by decide)⟩

/-- Sums of pointwise sums of mapped naturals split. -/
lemma sum_map_add {β : Type} (l : List β) (f g : β → Nat) :
    (l.map (fun x => f x + g x)).sum = (l.map f).sum + (l.map g).sum := by
  induction l with
  | nil => simp
  | cons a t ih =>
    simp only [List.map_cons, List.sum_cons, ih]
    omega

/-- The sum of indicator values over a list is its `countP`. -/
lemma sum_map_indicator {β : Type} (l : List β) (p : β → Bool) :
    (l.map (fun x => if p x then 1 else 0)).sum = l.countP p := by
  induction l with
  | nil => simp
  | cons a t ih =>
    by_cases h : p a = true
    · simp [List.countP_cons, h, ih]
      omega
    · simp only [Bool.not_eq_true] at h
      simp [List.countP_cons, h, ih]

/-- Double counting: summing filter lengths over a list of predicates equals
summing, per element, how many of the predicates it satisfies. -/
lemma sum_length_filter_exchange {α β : Type} (pred : β → α → Bool) :
    ∀ (ps : List β) (L : List α),
      (ps.map (fun p => (L.filter (pred p)).length)).sum =
        (L.map (fun a => ps.countP (fun p => pred p a))).sum := by
  intro ps L
  induction L with
  | nil => simp
  | cons a t ih =>
    have hlen : ∀ p : β, ((a :: t).filter (pred p)).length =
        (if pred p a then 1 else 0) + (t.filter (pred p)).length := by
      intro p
      rw [List.filter_cons]
      by_cases h : pred p a = true
      · simp only [h, if_true, List.length_cons]
        omega
      · simp only [Bool.not_eq_true] at h
        simp [h]
    calc (ps.map (fun p => ((a :: t).filter (pred p)).length)).sum
        = (ps.map (fun p => (if pred p a then 1 else 0) +
            (t.filter (pred p)).length)).sum := by
          congr 1
          exact List.map_congr_left (fun p _ => hlen p)
      _ = (ps.map (fun p => if pred p a then 1 else 0)).sum +
            (ps.map (fun p => (t.filter (pred p)).length)).sum :=
          sum_map_add ps _ _
      _ = ps.countP (fun p => pred p a) +
            (t.map (fun x => ps.countP (fun p => pred p x))).sum := by
          rw [sum_map_indicator, ih]
      _ = ((a :: t).map (fun x => ps.countP (fun p => pred p x))).sum := by
          simp

/-- A sum of per-element values each at most one is at most the length. -/
lemma sum_map_le_length {α : Type} (L : List α) (f : α → Nat)
    (h : ∀ a, f a ≤ 1) :
    (L.map f).sum ≤ L.length := by
  induction L with
  | nil => simp
  | cons a t ih =>
    simp only [List.map_cons, List.sum_cons, List.length_cons]
    have := h a
    omega

/-- The eleven drug groups of rows 1.1-1.11 are pairwise disjoint: a client
satisfies `primaryDrugIn` for at most one of them. -/
lemma drug_groups_disjoint (c : ClientRow) :
    clientsReportDrugGroups.countP (fun g => primaryDrugIn g c) ≤ 1 := by
  rcases hc : c.primary_drug with - | d
  · simp [primaryDrugIn, hc, clientsReportDrugGroups, List.countP_cons]
  · have : ∀ g : List Drug, primaryDrugIn g c = g.contains d := by
      intro g
      simp [primaryDrugIn, hc]
    have hd : ∀ x : Drug,
        clientsReportDrugGroups.countP (fun g => g.contains x) ≤ 1 := by
      decide
    calc clientsReportDrugGroups.countP (fun g => primaryDrugIn g c)
        = clientsReportDrugGroups.countP (fun g => g.contains d) :=
          List.countP_congr (fun g _ => by rw [this g])
      _ ≤ 1 := hd d

/-- C8: for every date range and town filter, the sum over the
per-primary-drug rows 1.1-1.11 of the clients report is at most the total
distinct non-anonymous drug-user count of row 5.1. -/
theorem drug_rows_sum_le_total_drug_users :
    ∀ (dtFrom dtTo : Nat) (towns : List Nat)
      (encounters : List EncounterRow) (clients : List ClientRow),
      (clientsReportDrugGroups.map
        (fun g => drugRowCount g dtFrom dtTo towns encounters clients)).sum ≤
        totalDrugUsersCount dtFrom dtTo towns encounters clients := by
  intro dtFrom dtTo towns encounters clients
  have heq : (clientsReportDrugGroups.map
      (fun g => drugRowCount g dtFrom dtTo towns encounters clients)).sum =
      ((get_all_drug_users dtFrom dtTo towns encounters clients).map
        (fun c => clientsReportDrugGroups.countP
          (fun g => primaryDrugIn g c))).sum := by
    rw [show (fun g => drugRowCount g dtFrom dtTo towns encounters clients) =
        (fun g => (((get_all_drug_users dtFrom dtTo towns encounters
          clients).filter (primaryDrugIn g)).length)) from rfl]
    exact sum_length_filter_exchange primaryDrugIn clientsReportDrugGroups _
  rw [heq]
  exact sum_map_le_length _ _ drug_groups_disjoint

/-- C10: `_get_syringes_count` and the needle in/out sums return the SQL
NULL placeholder (`none`), not 0, when no row matches, whereas the
service-stats helpers `_sum_int`, `_max_int` and `_avg_int` coalesce an
empty aggregate to 0 with `or 0`. -/
theorem empty_aggregate_null_vs_zero :
    ∀ (dtFrom dtTo : Nat) (towns : List Nat)
      (colls : List SyringeCollectionRow) (hr : List HarmReductionRow),
      (syringeCollectionFilter dtFrom dtTo towns colls = [] →
        get_syringes_count dtFrom dtTo towns colls = none) ∧
      (get_harm_reduction_services dtFrom dtTo towns hr = [] →
        harm_reduction_out_sum dtFrom dtTo towns hr = none ∧
        harm_reduction_in_sum dtFrom dtTo towns hr = none) ∧
      (sum_int [] = 0 ∧ max_int [] = 0 ∧ avg_int [] = 0) := by
  intro dtFrom dtTo towns colls hr
  refine ⟨?_, ?_, rfl, rfl, rfl⟩
  · intro h
    simp [get_syringes_count, h, aggregateSum]
  · intro h
    constructor
    · simp [harm_reduction_out_sum, h, aggregateSum]
    · simp [harm_reduction_in_sum, h, aggregateSum]

/-- C10 witness: the theorem applied with no syringe collections and no
harm-reduction services at all. -/
theorem empty_aggregate_null_vs_zero_witness :
    get_syringes_count 0 10 [] [] = none ∧
    harm_reduction_out_sum 0 10 [] [] = none ∧
    sum_int [] = 0 :=
  ⟨(empty_aggregate_null_vs_zero 0 10 [] [] []).1 rfl,
   ((empty_aggregate_null_vs_zero 0 10 [] [] []).2.1 rfl).1,
   (empty_aggregate_null_vs_zero 0 10 [] [] []).2.2.1⟩

/-- C9 counterexample: `GovCouncilReport.get_filename` does not derive the
file name from the report's date range — two runs over different date
ranges produce the same name, which contains no date at all. -/
theorem gov_filename_ignores_date_range :
    gov_council_get_filename GovCouncilKind.clients
      ⟨2011, 1, 1, 0, 0, 0⟩ ⟨2011, 3, 31, 23, 59, 59⟩ =
    gov_council_get_filename GovCouncilKind.clients
      ⟨2012, 7, 1, 0, 0, 0⟩ ⟨2012, 9, 30, 23, 59, 59⟩ ∧
    (⟨2011, 1, 1, 0, 0, 0⟩ : PyDatetime) ≠ ⟨2012, 7, 1, 0, 0, 0⟩ :=
  ⟨rfl, by decide⟩

/-- C9 amended: `HygieneReport.get_filename` derives the file name from the
report type and the date range, with the dates' spaces and dashes replaced
by underscores; `GovCouncilReport.get_filename` depends on the report kind
only and ignores the date range. -/
theorem filename_derivation :
    (∀ d1 d2 : PyDatetime,
      '-' ∉ (hygiene_get_filename d1 d2).data ∧
      ' ' ∉ (hygiene_get_filename d1 d2).data) ∧
    (hygiene_get_filename ⟨2011, 1, 1, 0, 0, 0⟩ ⟨2011, 3, 31, 23, 59, 59⟩ ≠
      hygiene_get_filename ⟨2012, 7, 1, 0, 0, 0⟩ ⟨2012, 9, 30, 23, 59, 59⟩) ∧
    (∀ (k : GovCouncilKind) (d1 d2 d3 d4 : PyDatetime),
      gov_council_get_filename k d1 d2 = gov_council_get_filename k d3 d4) ∧
    (∀ d1 d2 : PyDatetime,
      gov_council_get_filename GovCouncilKind.clients d1 d2 =
        "RVKPP_klienti.xls" ∧
      gov_council_get_filename GovCouncilKind.services d1 d2 =
        "RVKPP_vykony.xls") := by
  refine ⟨?_, ?_, fun k d1 d2 d3 d4 => by cases k <;> rfl,
    fun d1 d2 => ⟨rfl, rfl⟩⟩
  · intro d1 d2
    constructor
    · intro hmem
      obtain ⟨c, -, hc⟩ := List.mem_map.mp hmem
      by_cases h : c = '-' ∨ c = ' '
      · simp [underscoreChar, h] at hc
      · rw [show underscoreChar c = c from by simp [underscoreChar, h]] at hc
        exact h (Or.inl hc)
    · intro hmem
      obtain ⟨c, -, hc⟩ := List.mem_map.mp hmem
      by_cases h : c = '-' ∨ c = ' '
      · simp [underscoreChar, h] at hc
      · rw [show underscoreChar c = c from by simp [underscoreChar, h]] at hc
        exact h (Or.inr hc)
  · decide

/-- C9 witness: the amended theorem applied at a concrete date range. -/
theorem filename_derivation_witness :
    '-' ∉ (hygiene_get_filename ⟨2011, 1, 1, 0, 0, 0⟩
      ⟨2011, 3, 31, 23, 59, 59⟩).data ∧
    gov_council_get_filename GovCouncilKind.services
      ⟨2011, 1, 1, 0, 0, 0⟩ ⟨2011, 3, 31, 23, 59, 59⟩ = "RVKPP_vykony.xls" :=
  ⟨(filename_derivation.1 ⟨2011, 1, 1, 0, 0, 0⟩ ⟨2011, 3, 31, 23, 59, 59⟩).1,
   (filename_derivation.2.2.2 ⟨2011, 1, 1, 0, 0, 0⟩
     ⟨2011, 3, 31, 23, 59, 59⟩).2⟩

end Boris
